import Mathlib

/-!
Shallow embedding of `src/examples/test-deno-server.py` (hypha-core).

The script is a single sequential async routine.  Every effect it performs
is either a line printed to standard output or a remote RPC call whose
outcome is decided by the external server.  We model the external world as
a `RemoteEnv`: for each remote operation the environment says whether the
awaited call returns a value or raises, and with which payload.  The script
itself is then a deterministic function from the environment to a trace of
`Event`s (in program order) together with the boolean result returned by
`test_deno_server` and, in `script_main`, the process exit code.

The event type also has constructors for file reads, file writes and
environment-variable reads; the embedding of the script never emits them,
which is how the frame claim is stated.
-/

/-- One observable effect of the script, in program order.  `print` is a line
written to standard output; `remoteCall` is the issuing of an awaited remote
RPC call, recorded with the operation name and its string argument (empty for
nullary calls).  The `fileRead`, `fileWrite` and `envVarRead` constructors
exist so that the absence of file and environment-variable access is a
statable property of traces; the embedded script never produces them. -/
inductive Event where
  | print (line : String)
  | remoteCall (name : String) (arg : String)
  | fileRead (path : String)
  | fileWrite (path : String)
  | envVarRead (name : String)
  deriving DecidableEq, Repr

/-- The `server.config` object reported by a successful
`connect_to_server` (lines 27-35 of the script). -/
structure ServerConfig where
  workspace : String
  client_id : String

/-- A service handle returned by `server.get_service("hello-world")`
(line 69): its `hello` method is a remote call whose outcome the
environment decides. -/
structure HelloService where
  hello : String → Except String String

/-- The handle returned by `server.register_service` (lines 78-93): it
carries the registered service id and a remote `compute_square` method
whose outcome the environment decides. -/
structure RegisteredHandle where
  id : String
  compute_square : Int → Except String Int

/-- The `compute_square` handler registered by the script: the Python
lambda `lambda n: n * n` at line 85. -/
def compute_square (n : Int) : Int := n * n

/-- The `get_python_info` handler registered by the script (lines 86-90):
a mapping from keys to values, with `sys.version` and `sys.platform`
passed in as ambient host values. -/
def get_python_info (version platform : String) : List (String × String) :=
  [("python_version", version), ("client", "Python"), ("platform", platform)]

/-- The service descriptor built at lines 78-91 and passed to
`register_service`. -/
structure ServiceSpec where
  id : String
  name : String
  description : String
  visibility : String
  compute_square : Int → Int
  get_python_info : Unit → List (String × String)

/-- The concrete descriptor the script registers (lines 78-91). -/
def pythonClientService (version platform : String) : ServiceSpec :=
  { id := "python-client-service:built-in"
  , name := "Python Client Service"
  , description := "A built-in service registered from Python client"
  , visibility := "public"
  , compute_square := compute_square
  , get_python_info := fun _ => get_python_info version platform }

/-- The external world: for each remote operation the script performs, the
result of awaiting it — `Except.ok` a returned value, or `Except.error` an
exception message. -/
structure RemoteEnv where
  connect : Except String ServerConfig
  echo : String → Except String String
  get_server_info : Except String String
  hello : String → Except String String
  get_time : Except String String
  get_service : String → Except String HelloService
  register_service : ServiceSpec → Except String RegisteredHandle

/-- The echo step (lines 38-43): guarded by its own try/except. -/
def echoStep (env : RemoteEnv) : List Event :=
  [Event.print "\n🧪 Testing echo service...",
   Event.remoteCall "echo" "Hello from Python client!"] ++
  match env.echo "Hello from Python client!" with
  | .ok r => [Event.print ("Echo response: " ++ r)]
  | .error e => [Event.print ("Echo service error: " ++ e)]

/-- The server-info step (lines 46-51): guarded by its own try/except. -/
def serverInfoStep (env : RemoteEnv) : List Event :=
  [Event.print "\n📊 Getting server info...",
   Event.remoteCall "get_server_info" ""] ++
  match env.get_server_info with
  | .ok r => [Event.print ("Server info: " ++ r)]
  | .error e => [Event.print ("Server info error: " ++ e)]

/-- The fallback path of the hello step (lines 67-73): resolve the
"hello-world" service and call `hello` on the handle, with both the lookup
failure and the call failure caught by the same except clause. -/
def helloFallback (env : RemoteEnv) : List Event :=
  [Event.remoteCall "get_service" "hello-world"] ++
  match env.get_service "hello-world" with
  | .ok svc =>
    [Event.remoteCall "hello_via_service" "Python Client"] ++
    match svc.hello "Python Client" with
    | .ok r => [Event.print ("Hello response (via service): " ++ r)]
    | .error e2 => [Event.print ("Hello service (via get_service) error: " ++ e2)]
  | .error e2 => [Event.print ("Hello service (via get_service) error: " ++ e2)]

/-- The hello step (lines 54-73): `hello` then `get_time` in one try block;
on failure of either, print the error and run the fallback. -/
def helloStep (env : RemoteEnv) : List Event :=
  [Event.print "\n🌍 Testing hello service...",
   Event.remoteCall "hello" "Python Client"] ++
  match env.hello "Python Client" with
  | .ok r =>
    [Event.print ("Hello response: " ++ r),
     Event.remoteCall "get_time" ""] ++
    match env.get_time with
    | .ok t => [Event.print ("Server time: " ++ t)]
    | .error e => [Event.print ("Hello service error: " ++ e)] ++ helloFallback env
  | .error e => [Event.print ("Hello service error: " ++ e)] ++ helloFallback env

/-- The registration step (lines 76-100): register the service; only if
registration returned a handle, print its id and invoke the remote
`compute_square(7)` on it; any exception in the block is caught by the one
except clause at line 99. -/
def registerStep (version platform : String) (env : RemoteEnv) : List Event :=
  [Event.print "\n📝 Registering Python client service...",
   Event.remoteCall "register_service" "python-client-service:built-in"] ++
  match env.register_service (pythonClientService version platform) with
  | .ok handle =>
    [Event.print ("✅ Service registered with ID: " ++ handle.id),
     Event.remoteCall "compute_square" "7"] ++
    match handle.compute_square 7 with
    | .ok sq => [Event.print ("Square(7) = " ++ toString sq)]
    | .error e => [Event.print ("Service registration error: " ++ e)]
  | .error e => [Event.print ("Service registration error: " ++ e)]

/-- `test_deno_server` (lines 19-109): the whole routine.  The outer
try/except makes a `connect_to_server` failure fatal (print the failure
message, return `false`); on success the four guarded steps run in order
and the routine returns `true`. -/
def test_deno_server (version platform : String) (env : RemoteEnv) :
    List Event × Bool :=
  match env.connect with
  | .error err =>
    ([Event.print "🔌 Connecting to Deno Hypha server...",
      Event.remoteCall "connect_to_server" "http://localhost:9527",
      Event.print ("❌ Failed to connect or execute: " ++ err)], false)
  | .ok server =>
    ([Event.print "🔌 Connecting to Deno Hypha server...",
      Event.remoteCall "connect_to_server" "http://localhost:9527",
      Event.print "✅ Connected to Hypha server successfully!",
      Event.print ("📍 Connected to workspace: " ++ server.workspace),
      Event.print ("🆔 Client ID: " ++ server.client_id)] ++
     echoStep env ++ serverInfoStep env ++ helloStep env ++
     registerStep version platform env ++
     [Event.print "\n🎉 All tests completed successfully!",
      Event.print "Connection test passed - Deno WebSocket server is working! 🦕"],
     true)

/-- The `__main__` block (lines 111-118): run the routine and map its
boolean result to a final print and the process exit code. -/
def script_main (version platform : String) (env : RemoteEnv) :
    List Event × Nat :=
  if (test_deno_server version platform env).2 then
    ((test_deno_server version platform env).1 ++ [Event.print "\n✅ Test passed!"], 0)
  else
    ((test_deno_server version platform env).1 ++ [Event.print "\n❌ Test failed!"], 1)

/-- A fully healthy environment: connection succeeds and every remote call
returns a value; `echo` is the identity and the registered handle routes
`compute_square` back to the spec's own handler. -/
def okEnv : RemoteEnv :=
  { connect := .ok { workspace := "default", client_id := "python-test-client-1" }
  , echo := fun s => .ok s
  , get_server_info := .ok "deno-server 0.1"
  , hello := fun name => .ok ("Hello, " ++ name)
  , get_time := .ok "2026-10-12T00:00:00Z"
  , get_service := fun _ => .ok { hello := fun name => .ok ("Hi, " ++ name) }
  , register_service := fun spec =>
      .ok { id := spec.id, compute_square := fun n => .ok (spec.compute_square n) } }

/-- Connection succeeds but every later remote call raises. -/
def failEnv : RemoteEnv :=
  { connect := .ok { workspace := "default", client_id := "python-test-client-2" }
  , echo := fun _ => .error "echo down"
  , get_server_info := .error "info down"
  , hello := fun _ => .error "hello down"
  , get_time := .error "time down"
  , get_service := fun _ => .error "lookup down"
  , register_service := fun _ => .error "register down" }

/-- The server is unreachable: `connect_to_server` raises. -/
def downEnv : RemoteEnv :=
  { connect := .error "connection refused"
  , echo := fun _ => .error "unreachable"
  , get_server_info := .error "unreachable"
  , hello := fun _ => .error "unreachable"
  , get_time := .error "unreachable"
  , get_service := fun _ => .error "unreachable"
  , register_service := fun _ => .error "unreachable" }

/-- Connection succeeds, the direct `hello` call raises, the
"hello-world" service lookup succeeds, and the retried `hello` on the
resolved handle raises as well. -/
def retryFailEnv : RemoteEnv :=
  { connect := .ok { workspace := "default", client_id := "python-test-client-3" }
  , echo := fun s => .ok s
  , get_server_info := .ok "deno-server 0.1"
  , hello := fun _ => .error "hello down"
  , get_time := .error "time down"
  , get_service := fun _ => .ok { hello := fun _ => .error "retry down" }
  , register_service := fun spec =>
      .ok { id := spec.id, compute_square := fun n => .ok (spec.compute_square n) } }

/-- `true` exactly on the events that touch the file system or read an
environment variable; the embedded script should never emit one. -/
def Event.isHostAccess : Event → Bool
  | .fileRead _ => true
  | .fileWrite _ => true
  | .envVarRead _ => true
  | _ => false

theorem echoStep_no_host (env : RemoteEnv) :
    ∀ ev ∈ echoStep env, ev.isHostAccess = false := by
  unfold echoStep
  cases env.echo "Hello from Python client!" <;> simp [Event.isHostAccess]

theorem serverInfoStep_no_host (env : RemoteEnv) :
    ∀ ev ∈ serverInfoStep env, ev.isHostAccess = false := by
  unfold serverInfoStep
  cases env.get_server_info <;> simp [Event.isHostAccess]

theorem helloFallback_no_host (env : RemoteEnv) :
    ∀ ev ∈ helloFallback env, ev.isHostAccess = false := by
  unfold helloFallback
  cases hs : env.get_service "hello-world" with
  | error e2 => simp [Event.isHostAccess]
  | ok svc => cases hh : svc.hello "Python Client" <;> simp [hh, Event.isHostAccess]

theorem helloStep_no_host (env : RemoteEnv) :
    ∀ ev ∈ helloStep env, ev.isHostAccess = false := by
  unfold helloStep
  cases h1 : env.hello "Python Client" with
  | error e =>
    refine List.forall_mem_append.mpr ⟨by simp [Event.isHostAccess],
      List.forall_mem_append.mpr ⟨by simp [Event.isHostAccess], helloFallback_no_host env⟩⟩
  | ok r =>
    cases h2 : env.get_time with
    | ok t => simp [Event.isHostAccess]
    | error e =>
      refine List.forall_mem_append.mpr ⟨by simp [Event.isHostAccess], ?_⟩
      refine List.forall_mem_append.mpr ⟨by simp [Event.isHostAccess], ?_⟩
      exact List.forall_mem_append.mpr ⟨by simp [Event.isHostAccess], helloFallback_no_host env⟩

theorem registerStep_no_host (v p : String) (env : RemoteEnv) :
    ∀ ev ∈ registerStep v p env, ev.isHostAccess = false := by
  unfold registerStep
  cases hr : env.register_service (pythonClientService v p) with
  | error e => simp [Event.isHostAccess]
  | ok handle => cases hc : handle.compute_square 7 <;> simp [hc, Event.isHostAccess]

theorem trace_ok_decomp (v p : String) (env : RemoteEnv) (server : ServerConfig)
    (hc : env.connect = Except.ok server) :
    (test_deno_server v p env).1 =
      [Event.print "🔌 Connecting to Deno Hypha server...",
       Event.remoteCall "connect_to_server" "http://localhost:9527",
       Event.print "✅ Connected to Hypha server successfully!",
       Event.print ("📍 Connected to workspace: " ++ server.workspace),
       Event.print ("🆔 Client ID: " ++ server.client_id)] ++
      echoStep env ++ serverInfoStep env ++ helloStep env ++
      registerStep v p env ++
      [Event.print "\n🎉 All tests completed successfully!",
       Event.print "Connection test passed - Deno WebSocket server is working! 🦕"] ∧
    (test_deno_server v p env).2 = true := by
  unfold test_deno_server
  rw [hc]
  exact ⟨rfl, rfl⟩

theorem mem_trace_of_mem_step (v p : String) (env : RemoteEnv) (cfg : ServerConfig)
    (hc : env.connect = Except.ok cfg) (ev : Event)
    (h : ev ∈ echoStep env ∨ ev ∈ serverInfoStep env ∨ ev ∈ helloStep env ∨
         ev ∈ registerStep v p env) :
    ev ∈ (test_deno_server v p env).1 := by
  rw [(trace_ok_decomp v p env cfg hc).1]
  simp only [List.mem_append]
  tauto

theorem echoStep_header_mem (env : RemoteEnv) :
    Event.print "\n🧪 Testing echo service..." ∈ echoStep env := by
  unfold echoStep
  exact List.mem_append_left _ (by simp)

theorem serverInfoStep_header_mem (env : RemoteEnv) :
    Event.print "\n📊 Getting server info..." ∈ serverInfoStep env := by
  unfold serverInfoStep
  exact List.mem_append_left _ (by simp)

theorem helloStep_header_mem (env : RemoteEnv) :
    Event.print "\n🌍 Testing hello service..." ∈ helloStep env := by
  unfold helloStep
  exact List.mem_append_left _ (by simp)

theorem registerStep_header_mem (v p : String) (env : RemoteEnv) :
    Event.print "\n📝 Registering Python client service..." ∈ registerStep v p env := by
  unfold registerStep
  exact List.mem_append_left _ (by simp)

theorem completion_print_mem (v p : String) (env : RemoteEnv) (cfg : ServerConfig)
    (hc : env.connect = Except.ok cfg) :
    Event.print "\n🎉 All tests completed successfully!" ∈ (test_deno_server v p env).1 := by
  rw [(trace_ok_decomp v p env cfg hc).1]
  simp

theorem echoStep_error_mem (env : RemoteEnv) (e : String)
    (h : env.echo "Hello from Python client!" = Except.error e) :
    Event.print ("Echo service error: " ++ e) ∈ echoStep env := by
  simp [echoStep, h]

theorem serverInfoStep_error_mem (env : RemoteEnv) (e : String)
    (h : env.get_server_info = Except.error e) :
    Event.print ("Server info error: " ++ e) ∈ serverInfoStep env := by
  simp [serverInfoStep, h]

theorem helloStep_error_mem (env : RemoteEnv) (e : String)
    (h : env.hello "Python Client" = Except.error e) :
    Event.print ("Hello service error: " ++ e) ∈ helloStep env := by
  simp [helloStep, h]

theorem registerStep_error_mem (v p : String) (env : RemoteEnv) (e : String)
    (h : env.register_service (pythonClientService v p) = Except.error e) :
    Event.print ("Service registration error: " ++ e) ∈ registerStep v p env := by
  simp [registerStep, h]

theorem get_service_call_mem_fallback (env : RemoteEnv) :
    Event.remoteCall "get_service" "hello-world" ∈ helloFallback env := by
  unfold helloFallback
  exact List.mem_append_left _ (by simp)

theorem fallback_error_print_mem (env : RemoteEnv) (e2 : String)
    (h : env.get_service "hello-world" = Except.error e2) :
    Event.print ("Hello service (via get_service) error: " ++ e2) ∈ helloFallback env := by
  simp [helloFallback, h]

theorem retry_call_mem_fallback (env : RemoteEnv) (svc : HelloService)
    (hs : env.get_service "hello-world" = Except.ok svc) :
    Event.remoteCall "hello_via_service" "Python Client" ∈ helloFallback env := by
  simp [helloFallback, hs]

theorem retry_error_print_mem_fallback (env : RemoteEnv) (svc : HelloService) (e2 : String)
    (hs : env.get_service "hello-world" = Except.ok svc)
    (hh : svc.hello "Python Client" = Except.error e2) :
    Event.print ("Hello service (via get_service) error: " ++ e2) ∈ helloFallback env := by
  simp [helloFallback, hs, hh]

theorem helloFallback_subset (env : RemoteEnv) (e : String)
    (hf : env.hello "Python Client" = Except.error e ∨
          (∃ r, env.hello "Python Client" = Except.ok r ∧ env.get_time = Except.error e)) :
    ∀ ev ∈ helloFallback env, ev ∈ helloStep env := by
  intro ev h
  rcases hf with hf | ⟨r, hr, ht⟩
  · simp only [helloStep, hf]
    simp only [List.mem_append, List.mem_cons]
    tauto
  · simp only [helloStep, hr, ht]
    simp only [List.mem_append, List.mem_cons]
    tauto

/-- C1: the process exit code is 0 if and only if the initial
`connect_to_server` call succeeded; the outcomes of the optional steps
(echo, server info, hello/time, registration) never change it. -/
theorem exit_code_zero_iff_connect_ok (v p : String) (env : RemoteEnv) :
    (script_main v p env).2 = 0 ↔ ∃ cfg, env.connect = Except.ok cfg := by
  cases hc : env.connect with
  | error err => simp [script_main, test_deno_server, hc]
  | ok cfg => simp [script_main, test_deno_server, hc]

/-- C2: if `connect_to_server` raises, the routine prints the failure
message, returns `false` (so the process exits with code 1), and the only
remote call ever issued is the connection attempt itself — none of the
optional steps is attempted. -/
theorem connect_failure_fatal (v p : String) (env : RemoteEnv) (err : String)
    (h : env.connect = Except.error err) :
    (test_deno_server v p env).2 = false ∧
    (script_main v p env).2 = 1 ∧
    Event.print ("❌ Failed to connect or execute: " ++ err) ∈ (script_main v p env).1 ∧
    ∀ n a, Event.remoteCall n a ∈ (script_main v p env).1 → n = "connect_to_server" := by
  refine ⟨by simp [test_deno_server, h], by simp [script_main, test_deno_server, h],
    by simp [script_main, test_deno_server, h], ?_⟩
  intro n a hmem
  simp [script_main, test_deno_server, h] at hmem
  exact hmem.1

theorem connect_failure_fatal_witness :
    (script_main "3.12.0" "linux" downEnv).2 = 1 :=
  (connect_failure_fatal "3.12.0" "linux" downEnv "connection refused" rfl).2.1

/-- C3: if the direct `hello` call raises, or `hello` succeeds and the
`get_time` call in the same guarded step raises, the fallback path runs:
`get_service("hello-world")` is issued inside the hello step; when the
lookup itself fails, that failure is caught and printed; when the lookup
returns a handle, the retried `hello` invocation on the resolved handle is
issued, and a failure of that retried invocation is caught and printed;
and in all cases the subsequent registration step still executes with the
routine still returning `true`. -/
theorem hello_fallback_attempted (v p : String) (env : RemoteEnv)
    (cfg : ServerConfig) (e : String)
    (hc : env.connect = Except.ok cfg)
    (hf : env.hello "Python Client" = Except.error e ∨
          (∃ r, env.hello "Python Client" = Except.ok r ∧
            env.get_time = Except.error e)) :
    Event.remoteCall "get_service" "hello-world" ∈ helloStep env ∧
    (∀ e2, env.get_service "hello-world" = Except.error e2 →
      Event.print ("Hello service (via get_service) error: " ++ e2) ∈ helloStep env) ∧
    (∀ svc, env.get_service "hello-world" = Except.ok svc →
      Event.remoteCall "hello_via_service" "Python Client" ∈ helloStep env ∧
      (∀ e2, svc.hello "Python Client" = Except.error e2 →
        Event.print ("Hello service (via get_service) error: " ++ e2) ∈ helloStep env)) ∧
    Event.print "\n📝 Registering Python client service..." ∈ (test_deno_server v p env).1 ∧
    (test_deno_server v p env).2 = true := by
  refine ⟨helloFallback_subset env e hf _ (get_service_call_mem_fallback env),
    fun e2 h2 => helloFallback_subset env e hf _ (fallback_error_print_mem env e2 h2),
    fun svc hs =>
      ⟨helloFallback_subset env e hf _ (retry_call_mem_fallback env svc hs),
       fun e2 hh =>
         helloFallback_subset env e hf _ (retry_error_print_mem_fallback env svc e2 hs hh)⟩,
    ?_, (trace_ok_decomp v p env cfg hc).2⟩
  exact mem_trace_of_mem_step v p env cfg hc _
    (Or.inr (Or.inr (Or.inr (registerStep_header_mem v p env))))

theorem hello_fallback_attempted_witness :
    Event.print ("Hello service (via get_service) error: " ++ "retry down") ∈
      helloStep retryFailEnv :=
  ((hello_fallback_attempted "3.12.0" "linux" retryFailEnv
    { workspace := "default", client_id := "python-test-client-3" }
    "hello down" rfl (Or.inl rfl)).2.2.1
    { hello := fun _ => Except.error "retry down" } rfl).2 "retry down" rfl

/-- C4: the `compute_square` handler registered by the script returns 49
on input 7. -/
theorem compute_square_seven (v p : String) :
    (pythonClientService v p).compute_square 7 = 49 := rfl

/-- C5: under the hypothesis that the remote echo operation is the
identity, the echo step sends the literal string
"Hello from Python client!" and prints back exactly that string. -/
theorem echo_roundtrip_identity (env : RemoteEnv)
    (h : ∀ s, env.echo s = Except.ok s) :
    Event.remoteCall "echo" "Hello from Python client!" ∈ echoStep env ∧
    Event.print ("Echo response: " ++ "Hello from Python client!") ∈ echoStep env := by
  simp [echoStep, h "Hello from Python client!"]

theorem echo_roundtrip_identity_witness :
    Event.print ("Echo response: " ++ "Hello from Python client!") ∈ echoStep okEnv :=
  (echo_roundtrip_identity okEnv (fun _ => rfl)).2

/-- C6: once connected, every optional step is individually guarded: each
step's header line always appears, the final completion line always
appears, the routine returns `true`, and when the remote call of any one
step raises, that step's error message is printed while the remaining
steps still run. -/
theorem optional_steps_guarded (v p : String) (env : RemoteEnv) (cfg : ServerConfig)
    (hc : env.connect = Except.ok cfg) :
    (test_deno_server v p env).2 = true ∧
    Event.print "\n🧪 Testing echo service..." ∈ (test_deno_server v p env).1 ∧
    Event.print "\n📊 Getting server info..." ∈ (test_deno_server v p env).1 ∧
    Event.print "\n🌍 Testing hello service..." ∈ (test_deno_server v p env).1 ∧
    Event.print "\n📝 Registering Python client service..." ∈ (test_deno_server v p env).1 ∧
    Event.print "\n🎉 All tests completed successfully!" ∈ (test_deno_server v p env).1 ∧
    (∀ e, env.echo "Hello from Python client!" = Except.error e →
      Event.print ("Echo service error: " ++ e) ∈ (test_deno_server v p env).1) ∧
    (∀ e, env.get_server_info = Except.error e →
      Event.print ("Server info error: " ++ e) ∈ (test_deno_server v p env).1) ∧
    (∀ e, env.hello "Python Client" = Except.error e →
      Event.print ("Hello service error: " ++ e) ∈ (test_deno_server v p env).1) ∧
    (∀ e, env.register_service (pythonClientService v p) = Except.error e →
      Event.print ("Service registration error: " ++ e) ∈ (test_deno_server v p env).1) := by
  refine ⟨(trace_ok_decomp v p env cfg hc).2,
    mem_trace_of_mem_step v p env cfg hc _ (Or.inl (echoStep_header_mem env)),
    mem_trace_of_mem_step v p env cfg hc _ (Or.inr (Or.inl (serverInfoStep_header_mem env))),
    mem_trace_of_mem_step v p env cfg hc _ (Or.inr (Or.inr (Or.inl (helloStep_header_mem env)))),
    mem_trace_of_mem_step v p env cfg hc _ (Or.inr (Or.inr (Or.inr (registerStep_header_mem v p env)))),
    completion_print_mem v p env cfg hc,
    fun e he => mem_trace_of_mem_step v p env cfg hc _ (Or.inl (echoStep_error_mem env e he)),
    fun e he => mem_trace_of_mem_step v p env cfg hc _
      (Or.inr (Or.inl (serverInfoStep_error_mem env e he))),
    fun e he => mem_trace_of_mem_step v p env cfg hc _
      (Or.inr (Or.inr (Or.inl (helloStep_error_mem env e he)))),
    fun e he => mem_trace_of_mem_step v p env cfg hc _
      (Or.inr (Or.inr (Or.inr (registerStep_error_mem v p env e he))))⟩

theorem optional_steps_guarded_witness :
    Event.print ("Echo service error: " ++ "echo down") ∈
      (test_deno_server "3.12.0" "linux" failEnv).1 :=
  (optional_steps_guarded "3.12.0" "linux" failEnv
    { workspace := "default", client_id := "python-test-client-2" }
    rfl).2.2.2.2.2.2.1 "echo down" rfl

/-- C7: inside the registration step, if `register_service` raised then
the remote `compute_square(7)` call is never issued; if it returned a
handle, the trace of the step starts with the header, then the
`register_service` call, then the id print, then the `compute_square(7)`
call — so registration strictly precedes the confirmation call. -/
theorem register_before_compute_square (v p : String) (env : RemoteEnv) :
    (∀ e, env.register_service (pythonClientService v p) = Except.error e →
      Event.remoteCall "compute_square" "7" ∉ registerStep v p env) ∧
    (∀ h, env.register_service (pythonClientService v p) = Except.ok h →
      ∃ tail, registerStep v p env =
        [Event.print "\n📝 Registering Python client service...",
         Event.remoteCall "register_service" "python-client-service:built-in",
         Event.print ("✅ Service registered with ID: " ++ h.id),
         Event.remoteCall "compute_square" "7"] ++ tail) := by
  constructor
  · intro e he
    simp [registerStep, he]
  · intro h hh
    refine ⟨match h.compute_square 7 with
      | .ok sq => [Event.print ("Square(7) = " ++ toString sq)]
      | .error e => [Event.print ("Service registration error: " ++ e)], ?_⟩
    simp [registerStep, hh]

theorem register_before_compute_square_witness :
    Event.remoteCall "compute_square" "7" ∉ registerStep "3.12.0" "linux" failEnv :=
  (register_before_compute_square "3.12.0" "linux" failEnv).1 "register down" rfl

theorem script_main_trace (v p : String) (env : RemoteEnv) :
    (script_main v p env).1 =
      (test_deno_server v p env).1 ++ [Event.print "\n✅ Test passed!"] ∨
    (script_main v p env).1 =
      (test_deno_server v p env).1 ++ [Event.print "\n❌ Test failed!"] := by
  unfold script_main
  cases h : (test_deno_server v p env).2
  · exact Or.inr (by simp)
  · exact Or.inl (by simp)

/-- C9: in every execution the script touches no file and reads no
environment variable: every event of the full trace (prints and remote
calls) satisfies `isHostAccess = false`, and the only other output is the
exit code. -/
theorem no_file_or_env_access (v p : String) (env : RemoteEnv) (ev : Event)
    (h : ev ∈ (script_main v p env).1) : ev.isHostAccess = false := by
  have htest : ∀ x ∈ (test_deno_server v p env).1, Event.isHostAccess x = false := by
    unfold test_deno_server
    cases hc : env.connect with
    | error err => simp [Event.isHostAccess]
    | ok server =>
      refine List.forall_mem_append.mpr ⟨?_, by simp [Event.isHostAccess]⟩
      refine List.forall_mem_append.mpr ⟨?_, registerStep_no_host v p env⟩
      refine List.forall_mem_append.mpr ⟨?_, helloStep_no_host env⟩
      refine List.forall_mem_append.mpr ⟨?_, serverInfoStep_no_host env⟩
      exact List.forall_mem_append.mpr ⟨by simp [Event.isHostAccess], echoStep_no_host env⟩
  rcases script_main_trace v p env with hm | hm
  · rw [hm] at h
    rcases List.mem_append.mp h with h1 | h1
    · exact htest ev h1
    · simp only [List.mem_singleton] at h1
      subst h1
      rfl
  · rw [hm] at h
    rcases List.mem_append.mp h with h1 | h1
    · exact htest ev h1
    · simp only [List.mem_singleton] at h1
      subst h1
      rfl

theorem no_file_or_env_access_witness :
    (Event.print "🔌 Connecting to Deno Hypha server...").isHostAccess = false :=
  no_file_or_env_access "3.12.0" "linux" downEnv
    (Event.print "🔌 Connecting to Deno Hypha server...")
    (by simp [script_main, test_deno_server, downEnv])

/-- C10: for every integer n the registered `compute_square` handler
returns n * n, and the registered `get_python_info` handler always maps
the key "client" to "Python". -/
theorem registered_handlers_correct (n : Int) (v p : String) :
    (pythonClientService v p).compute_square n = n * n ∧
    ((pythonClientService v p).get_python_info ()).lookup "client" = some "Python" :=
  ⟨rfl, rfl⟩
